import Mathlib

/-!
Shallow embedding of `prom` (PROfile Memory), `src/prom/__init__.py`.

The program captures a snapshot of a process's heap (graph of objects plus
optional garbage-collector statistics), persists it with pickle, and renders
a textual report.  We model:

  * graph nodes as the Python tuples `gather` builds (a list of elements, so
    that tuple-unpacking arity in `report` is meaningful);
  * the filesystem as an association list from paths to file contents, where
    a file either holds a validly pickled `(stats, graph)` pair or is
    corrupt (unpicklable);
  * the runtime's introspection facilities (`gc.get_stats`, `gc.get_objects`,
    `gc.get_referents`, `gc.get_referrers`, `sys.getsizeof`, `str`) as an
    injected `Runtime` value, since they are external to the repository;
  * exceptions as an explicit error type, with Python method mutation
    modelled by returning the updated object alongside an optional error.

Per-generation collector statistics records are opaque to the code (it only
pickles them and formats them with `%s`), so each record is modelled by its
string rendering.  Timestamps are modelled at integer resolution.
-/

namespace Prom

/-- An element of a graph-node tuple: the description string produced by
`obj_dump` (that is, `str(obj)`), the integer `sys.getsizeof(obj)`, or a
list of object identities (`[id(o) for o in ...]`). -/
inductive PyElem where
  | str (s : String)
  | int (n : Nat)
  | ids (l : List Nat)
deriving DecidableEq

/-- Python `str()` of a list of integers, e.g. `[1, 2]`. -/
def pyIdsStr : List Nat → String
  | [] => "[]"
  | n :: rest => "[" ++ toString n ++ pyIdsStrTail rest ++ "]"
where
  pyIdsStrTail : List Nat → String
    | [] => ""
    | n :: rest => ", " ++ toString n ++ pyIdsStrTail rest

/-- Python `str()` of a node element, as `'%s'` formatting applies it. -/
def PyElem.pyStr : PyElem → String
  | .str s => s
  | .int n => toString n
  | .ids l => pyIdsStr l

/-- A graph node: the tuple built by `gather`,
`(obj_dump(obj), sys.getsizeof(obj), [id(o) for referents], [id(o) for referrers])`,
modelled as a list of elements so unpacking arity is visible. -/
abbrev Node := List PyElem

/-- The memory graph: a Python dict from object identity to node.
Python 3.7+ dicts iterate in insertion order; updating an existing key
keeps its position. -/
abbrev Graph := List (Nat × Node)

/-- `d[k] = v` on an insertion-ordered dict: replace in place when the key
is present, append otherwise. -/
def dictInsert (g : Graph) (k : Nat) (v : Node) : Graph :=
  match g with
  | [] => [(k, v)]
  | (k', v') :: rest => if k' = k then (k, v) :: rest else (k', v') :: dictInsert rest k v

/-- One per-generation collector statistics record, modelled by its `str()`
rendering (the code never inspects these records, it only pickles them and
interpolates them with `%s`). -/
abbrev GenStat := String

/-- Contents of a file on disk: either a validly pickled `(stats, graph)`
pair as `write` produces it, or bytes `pickle.load` cannot parse. -/
inductive FileData where
  | snapshotData (stats : Option (List GenStat)) (graph : Option Graph)
  | corruptData
deriving DecidableEq

/-- The filesystem: paths mapped to file contents. -/
abbrev FS := List (String × FileData)

/-- `os.path.exists`. -/
def FS.pathexists (fs : FS) (p : String) : Bool :=
  (fs.lookup p).isSome

/-- Reading a file's contents (`open(path, 'rb')` plus `pickle.load`). -/
def FS.read (fs : FS) (p : String) : Option FileData :=
  fs.lookup p

/-- Creating a file with the given contents (`open(path, 'wb')` plus
`pickle.dump`); only ever used on fresh paths. -/
def FS.setFile (fs : FS) (p : String) (v : FileData) : FS :=
  (p, v) :: fs

/-- The Python exceptions the modelled code can raise. -/
inductive PromError where
  | alreadyExists (path : String)
  | incompleteSnapshot
  | fileNotFound (path : String)
  | corruptData
  | valueError
deriving DecidableEq

/-- Whether the exception is an instance of Python's `Exception` (as opposed
to a bare `BaseException`), i.e. whether `except Exception` catches it.
`alreadyExists` and `incompleteSnapshot` are `AssertionError`,
`fileNotFound` is `FileNotFoundError`, `corruptData` is
`pickle.UnpicklingError`, `valueError` is `ValueError`: all `Exception`
subclasses. -/
def PromError.isExceptionSubclass : PromError → Bool
  | .alreadyExists _ => true
  | .incompleteSnapshot => true
  | .fileNotFound _ => true
  | .corruptData => true
  | .valueError => true

/-- Text `LOGGER.exception(e)` records for the caught exception. -/
def PromError.logText : PromError → String
  | .alreadyExists p => "cannot overwrite " ++ p
  | .incompleteSnapshot => "no memory graph"
  | .fileNotFound p => "No such file or directory: " ++ p
  | .corruptData => "unpickling error"
  | .valueError => "too many values to unpack"

/-- One live heap object as the runtime's introspection reports it:
`id(obj)`, `str(obj)`, `sys.getsizeof(obj)`, and the identities returned by
`gc.get_referents` / `gc.get_referrers`. -/
structure HeapObj where
  ident : Nat
  dump : String
  size : Nat
  referents : List Nat
  referrers : List Nat
deriving DecidableEq

/-- The runtime introspection facilities `gather` consults: `gc.get_stats()`
when the attribute exists (`none` models the `AttributeError` on older
Pythons), and `gc.get_objects()` as observed after `gc.collect()`. -/
structure Runtime where
  stats : Option (List GenStat)
  objects : List HeapObj
deriving DecidableEq

/-- The node tuple `gather` builds for one object:
`(obj_dump(obj), sys.getsizeof(obj), referent ids, referrer ids)` —
four elements. -/
def nodeOf (o : HeapObj) : Node :=
  [PyElem.str o.dump, PyElem.int o.size, PyElem.ids o.referents, PyElem.ids o.referrers]

/-- The loop `for obj in objs: self.graph[id(obj)] = node`. -/
def buildGraph (objs : List HeapObj) : Graph :=
  objs.foldl (fun g o => dictInsert g o.ident (nodeOf o)) []

/-- The `PromDumpFile` object: a path plus the `stats` and `graph` fields,
both `None` after `__init__`. -/
structure PromDumpFile where
  path : String
  stats : Option (List GenStat)
  graph : Option Graph
deriving DecidableEq

/-- `PromDumpFile.__init__`: both fields start as `None`. -/
def PromDumpFile.init (path : String) : PromDumpFile :=
  ⟨path, none, none⟩

/-- `PromDumpFile.load`: open the file and unpickle
`self.stats, self.graph = pickle.load(f)`.  On any failure (missing file,
unparsable contents) the exception is raised before either field is
assigned, so the object is returned unchanged alongside the error. -/
def PromDumpFile.load (d : PromDumpFile) (fs : FS) : PromDumpFile × Option PromError :=
  match FS.read fs d.path with
  | none => (d, some (PromError.fileNotFound d.path))
  | some FileData.corruptData => (d, some PromError.corruptData)
  | some (FileData.snapshotData st g) => ({ d with stats := st, graph := g }, none)

/-- `PromDumpFile.gather`: force a collection, attempt `gc.get_stats()`
(keeping the previous value of `stats` when the attribute is missing), then
build the graph from `gc.get_objects()`. -/
def PromDumpFile.gather (d : PromDumpFile) (rt : Runtime) : PromDumpFile :=
  let stats' :=
    match rt.stats with
    | some s => some s
    | none => d.stats
  { d with stats := stats', graph := some (buildGraph rt.objects) }

/-- `PromDumpFile.write`: assert the path does not exist (raising
`AssertionError` before touching the file otherwise), gather when no graph
is held, then pickle `(self.stats, self.graph)` to the path. -/
def PromDumpFile.write (d : PromDumpFile) (rt : Runtime) (fs : FS) :
    PromDumpFile × FS × Option PromError :=
  if FS.pathexists fs d.path then
    (d, fs, some (PromError.alreadyExists d.path))
  else
    let d' :=
      match d.graph with
      | none => d.gather rt
      | some _ => d
    (d', FS.setFile fs d.path (FileData.snapshotData d'.stats d'.graph), none)

/-- The statistics lines `'%i: %s' % (i, s)` of `report`'s stats loop,
starting at index `i`. -/
def statLines : List GenStat → Nat → List String
  | [], _ => []
  | s :: rest, i => (toString i ++ ": " ++ s) :: statLines rest (i + 1)

/-- The statistics section of `report`: absent stats produce no lines;
present stats produce the header, one line per record, and a blank line. -/
def statSection : Option (List GenStat) → List String
  | none => []
  | some st => "Collection statitstics" :: (statLines st 0 ++ [""])

/-- The graph loop of `report` from row index `i`: a table header every 100
rows, then `obj, referents, referrers = node` — which raises `ValueError`
unless the node tuple has exactly three elements — then the row
`'%i\t%s' % (id, obj)`.  Returns the lines written before any error. -/
def graphLines : Graph → Nat → List String × Option PromError
  | [], _ => ([], none)
  | (oid, node) :: rest, i =>
    let hdr : List String := if i % 100 == 0 then ["ID\tObject"] else []
    match node with
    | [obj, _, _] =>
      let r := graphLines rest (i + 1)
      (hdr ++ (toString oid ++ "\t" ++ obj.pyStr) :: r.1, r.2)
    | _ => (hdr, some PromError.valueError)

/-- `PromDumpFile.report`: assert a graph is held (raising before writing
anything otherwise), emit the statistics section and the `Object graph`
header, then the graph rows.  Returns the lines written to the stream and
the exception, if one escaped. -/
def PromDumpFile.report (d : PromDumpFile) : List String × Option PromError :=
  match d.graph with
  | none => ([], some PromError.incompleteSnapshot)
  | some g =>
    let r := graphLines g 0
    (statSection d.stats ++ "Object graph" :: r.1, r.2)

/-- `get_process_info()`: capture timestamp (modelled at integer
resolution), pid and program name. -/
structure ProcessInfo where
  ts : Nat
  pid : Nat
  name : String
deriving DecidableEq

/-- The default `FILE_NAME_TEMPLATE`, `'%(name)s-%(pid)i-%(ts)s.prom'`,
applied to the process info. -/
def fileNameTemplate (info : ProcessInfo) : String :=
  info.name ++ "-" ++ toString info.pid ++ "-" ++ toString info.ts ++ ".prom"

/-- The `PromDump` coordinator, configured with an output directory and
carrying the default file-name template. -/
structure PromDump where
  path : String
deriving DecidableEq

/-- `PromDump.dump`: derive the output file name from fresh process info,
make a fresh `PromDumpFile` and write it (which gathers first, since the
fresh object holds no graph). -/
def PromDump.dump (p : PromDump) (info : ProcessInfo) (rt : Runtime) (fs : FS) :
    PromDumpFile × FS × Option PromError :=
  let file_name := p.path ++ "/" ++ fileNameTemplate info
  (PromDumpFile.init file_name).write rt fs

/-- The `LOGGER.info('Received signal: %i, dumping', sig)` line. -/
def recvLine (sig : Nat) : String :=
  "Received signal: " ++ toString sig ++ ", dumping"

/-- `PromDump._handler`: log the signal, then
`try: self.dump() / except Exception as e: LOGGER.exception(e)`.
The result is `Except.ok` exactly when nothing propagates out of the
handler; the second component records what was logged. -/
def PromDump.handler (p : PromDump) (sig : Nat) (info : ProcessInfo) (rt : Runtime)
    (fs : FS) : Except PromError (FS × List String) :=
  match p.dump info rt fs with
  | (_, fs', none) => Except.ok (fs', [recvLine sig])
  | (_, fs', some e) =>
    if e.isExceptionSubclass then Except.ok (fs', [recvLine sig, e.logText])
    else Except.error e

/-- Outcome of the command-line entry point: a usage error (`DocoptExit`
raised from the schema validation, non-zero exit), an uncaught exception
(non-zero exit, with what had been written to stdout), or a normal exit
zero with the written report. -/
inductive MainOutcome where
  | usageError
  | crashed (e : PromError) (written : List String)
  | success (written : List String)
deriving DecidableEq

/-- `main(argv)` with one path argument, after the external docopt parse:
validate `pathexists(path)` (raising `DocoptExit` otherwise), then build
`PromDumpFile(path)` and call `report()` on it.  `load()` is never called.
The filesystem is returned to show no file is created. -/
def mainCmd (path : String) (fs : FS) : MainOutcome × FS :=
  if FS.pathexists fs path then
    match (PromDumpFile.init path).report with
    | (written, some e) => (MainOutcome.crashed e written, fs)
    | (written, none) => (MainOutcome.success written, fs)
  else
    (MainOutcome.usageError, fs)

/-! ## Concrete inputs used by the closed theorems and the witnesses -/

/-- A heap object as the runtime might report it. -/
def oEx : HeapObj :=
  { ident := 7, dump := "<module sys>", size := 16, referents := [3], referrers := [4] }

/-- A filesystem holding a validly stored snapshot at `dump.prom`. -/
def fsEx : FS :=
  [("dump.prom", FileData.snapshotData (some ["gen0"]) (some [(7, nodeOf oEx)]))]

/-! ## Theorems for the claims -/

/-- C1: the claim's second half holds (a nonexistent path yields a usage
error, non-zero exit, filesystem untouched), but its first half fails on
the code: for an existing path holding a validly stored snapshot, `main`
builds `PromDumpFile(path)` and calls `report()` without ever calling
`load()`, so the graph is still `None`, `report`'s assertion raises, the
process exits non-zero and nothing is written to standard output. -/
theorem C1_main_crashes_on_valid_dump :
    mainCmd "dump.prom" fsEx = (MainOutcome.crashed PromError.incompleteSnapshot [], fsEx) ∧
    mainCmd "missing.prom" fsEx = (MainOutcome.usageError, fsEx) := by
  constructor
  · rfl
  · rfl

/-- A runtime with one live object and no statistics facility. -/
def rtC2 : Runtime := { stats := none, objects := [oEx] }

/-- A snapshot populated by `gather` from that runtime. -/
def dC2 : PromDumpFile := (PromDumpFile.init "c2.prom").gather rtC2

/-- C2: fails on the code.  `gather` stores each node as the 4-tuple
`(description, approx_size, referents, referrers)`, but `report` unpacks a
node into the three names `obj, referents, referrers`, so on a populated
snapshot with one node `report` raises `ValueError` at the first row,
right after the first table header, and emits no identity/description
line at all. -/
theorem C2_report_row_unpack_fails :
    dC2.graph = some [(7, [PyElem.str "<module sys>", PyElem.int 16,
      PyElem.ids [3], PyElem.ids [4]])] ∧
    dC2.report = (["Object graph", "ID\tObject"], some PromError.valueError) := by
  constructor
  · rfl
  · rfl

/-- A populated snapshot with stats absent and one (gathered) node. -/
def dC6nostats : PromDumpFile := { path := "c6a.prom", stats := none, graph := some [(5, nodeOf oEx)] }

/-- A populated snapshot with two statistics records and one node. -/
def dC6stats : PromDumpFile :=
  { path := "c6b.prom", stats := some ["g0", "g1"], graph := some [(5, nodeOf oEx)] }

/-- C6: the statistics-section half of the claim matches the code (header,
one line per generation record in order, blank line, all before the graph
section; omitted entirely when stats are absent), but the graph section is
not rendered: with either snapshot, `report` raises `ValueError` while
unpacking the first 4-tuple node into three names, right after the first
table header, so the graph rows are never emitted. -/
theorem C6_graph_section_unrendered :
    dC6nostats.report = (["Object graph", "ID\tObject"], some PromError.valueError) ∧
    dC6stats.report = (["Collection statitstics", "0: g0", "1: g1", "",
      "Object graph", "ID\tObject"], some PromError.valueError) := by
  constructor
  · rfl
  · rfl

/-- C4: writing to a path that already holds a file raises the
`AssertionError` (`AlreadyExists`) before the file is opened, so the
filesystem — in particular the contents at that path — is unchanged. -/
theorem C4_write_no_overwrite (d : PromDumpFile) (rt : Runtime) (fs : FS)
    (h : FS.pathexists fs d.path = true) :
    d.write rt fs = (d, fs, some (PromError.alreadyExists d.path)) ∧
    FS.read (d.write rt fs).2.1 d.path = FS.read fs d.path := by
  have hw : d.write rt fs = (d, fs, some (PromError.alreadyExists d.path)) := by
    simp [PromDumpFile.write, h]
  exact ⟨hw, by rw [hw]⟩

/-- A snapshot holding a one-node graph, about to be written to `w4.prom`. -/
def dW4 : PromDumpFile := { path := "w4.prom", stats := none, graph := some [(7, nodeOf oEx)] }

/-- The filesystem after the first successful write of `dW4`. -/
def fsAfterW4 : FS := (dW4.write rtC2 []).2.1

/-- Witness for C4: the second of two writes to the same path fails with
`AlreadyExists` and leaves the first write's contents intact. -/
theorem C4_write_no_overwrite_witness :
    FS.pathexists fsAfterW4 dW4.path = true ∧
    (dW4.write rtC2 fsAfterW4 = (dW4, fsAfterW4, some (PromError.alreadyExists dW4.path)) ∧
     FS.read (dW4.write rtC2 fsAfterW4).2.1 dW4.path = FS.read fsAfterW4 dW4.path) :=
  ⟨by rfl, C4_write_no_overwrite dW4 rtC2 fsAfterW4 (by rfl)⟩

/-- C5: `report` on a snapshot whose graph was never populated fails
immediately with the `IncompleteSnapshot` assertion error and writes
nothing to the output stream. -/
theorem C5_report_requires_graph (d : PromDumpFile) (h : d.graph = none) :
    d.report = ([], some PromError.incompleteSnapshot) := by
  simp [PromDumpFile.report, h]

/-- Witness for C5: a freshly constructed `PromDumpFile` has no graph and
`report` on it fails with `IncompleteSnapshot`, writing nothing. -/
theorem C5_report_requires_graph_witness :
    (PromDumpFile.init "fresh.prom").graph = none ∧
    (PromDumpFile.init "fresh.prom").report = ([], some PromError.incompleteSnapshot) :=
  ⟨rfl, C5_report_requires_graph (PromDumpFile.init "fresh.prom") rfl⟩

/-! ## Shared lemmas -/

/-- Reading back the file just created at `p`. -/
theorem FS.read_setFile_self (fs : FS) (p : String) (v : FileData) :
    FS.read (FS.setFile fs p v) p = some v := by
  simp [FS.read, FS.setFile, List.lookup]

/-- Every modelled exception is an instance of Python's `Exception`. -/
theorem isExceptionSubclass_true (e : PromError) : e.isExceptionSubclass = true := by
  cases e <;> rfl

/-- Inserting a key not present in the dict appends the binding. -/
theorem dictInsert_of_not_mem (g : Graph) (k : Nat) (v : Node)
    (h : k ∉ g.map Prod.fst) : dictInsert g k v = g ++ [(k, v)] := by
  induction g with
  | nil => rfl
  | cons p rest ih =>
    obtain ⟨k', v'⟩ := p
    simp only [List.map_cons, List.mem_cons] at h
    push_neg at h
    have hne : ¬ (k' = k) := fun hh => h.1 hh.symm
    simp [dictInsert, hne, ih h.2]

/-- Folding `dictInsert` over objects with pairwise-distinct identities,
none already present in the accumulator, appends one binding per object. -/
theorem foldl_dictInsert_append (objs : List HeapObj) (g0 : Graph)
    (hdisj : ∀ o ∈ objs, o.ident ∉ g0.map Prod.fst)
    (hnodup : (objs.map HeapObj.ident).Nodup) :
    objs.foldl (fun g o => dictInsert g o.ident (nodeOf o)) g0
      = g0 ++ objs.map (fun o => (o.ident, nodeOf o)) := by
  induction objs generalizing g0 with
  | nil => simp
  | cons o rest ih =>
    have hnd : (∀ x ∈ rest, ¬ x.ident = o.ident) ∧ (rest.map HeapObj.ident).Nodup := by
      simpa using hnodup
    simp only [List.foldl_cons]
    rw [dictInsert_of_not_mem g0 o.ident (nodeOf o) (hdisj o (List.mem_cons_self o rest))]
    rw [ih]
    · simp
    · intro o' ho'
      simp only [List.map_append, List.mem_append, List.map_cons, List.map_nil,
        List.mem_singleton]
      rintro (hin | hin)
      · exact hdisj o' (List.mem_cons_of_mem o ho') hin
      · exact hnd.1 o' ho' hin
    · exact hnd.2

/-- `buildGraph` over distinct identities is one binding per object, in
enumeration order. -/
theorem buildGraph_eq_map (objs : List HeapObj)
    (h : (objs.map HeapObj.ident).Nodup) :
    buildGraph objs = objs.map (fun o => (o.ident, nodeOf o)) := by
  simpa [buildGraph] using foldl_dictInsert_append objs [] (by simp) h

/-- C3: writing a populated snapshot to a fresh path and loading that path
back (into any reader object with the same path) recovers the same stats
and the same graph — same identities, same node contents, in fact the same
association list. -/
theorem C3_write_load_roundtrip (d r : PromDumpFile) (rt : Runtime) (fs : FS) (g : Graph)
    (hg : d.graph = some g) (hfresh : FS.pathexists fs d.path = false)
    (hpath : r.path = d.path) :
    (d.write rt fs).2.2 = none ∧
    (r.load (d.write rt fs).2.1).2 = none ∧
    (r.load (d.write rt fs).2.1).1.stats = d.stats ∧
    (r.load (d.write rt fs).2.1).1.graph = some g := by
  have hw : d.write rt fs
      = (d, FS.setFile fs d.path (FileData.snapshotData d.stats (some g)), none) := by
    simp [PromDumpFile.write, hfresh, hg]
  have hr : FS.read (FS.setFile fs d.path (FileData.snapshotData d.stats (some g))) r.path
      = some (FileData.snapshotData d.stats (some g)) := by
    rw [hpath]; exact FS.read_setFile_self fs d.path _
  rw [hw]
  simp [PromDumpFile.load, hr]

/-- A populated snapshot to round-trip through `rt3.prom`. -/
def dW3 : PromDumpFile :=
  { path := "rt3.prom", stats := some ["gen0", "gen1"], graph := some [(7, nodeOf oEx)] }

/-- A fresh reader object for the same path. -/
def rW3 : PromDumpFile := PromDumpFile.init "rt3.prom"

/-- Witness for C3: the round-trip at a concrete snapshot, runtime and
empty filesystem. -/
theorem C3_write_load_roundtrip_witness :
    (dW3.write rtC2 []).2.2 = none ∧
    (rW3.load (dW3.write rtC2 []).2.1).2 = none ∧
    (rW3.load (dW3.write rtC2 []).2.1).1.stats = dW3.stats ∧
    (rW3.load (dW3.write rtC2 []).2.1).1.graph = some [(7, nodeOf oEx)] :=
  C3_write_load_roundtrip dW3 rW3 rtC2 [] [(7, nodeOf oEx)] rfl rfl rfl

/-- C7: on a fresh path, `write` gathers exactly when no graph is held —
the written object is `d.gather rt` when the graph was absent and `d`
unchanged when one was held — and the file then holds exactly the written
object's `(stats, graph)` pair. -/
theorem C7_write_gathers_iff_no_graph (d : PromDumpFile) (rt : Runtime) (fs : FS)
    (hfresh : FS.pathexists fs d.path = false) :
    (d.graph = none → (d.write rt fs).1 = d.gather rt) ∧
    (∀ g, d.graph = some g → (d.write rt fs).1 = d) ∧
    (d.write rt fs).2.2 = none ∧
    FS.read (d.write rt fs).2.1 d.path
      = some (FileData.snapshotData (d.write rt fs).1.stats (d.write rt fs).1.graph) := by
  cases hg : d.graph with
  | none =>
    have hw : d.write rt fs
        = (d.gather rt,
           FS.setFile fs d.path
             (FileData.snapshotData (d.gather rt).stats (d.gather rt).graph), none) := by
      simp [PromDumpFile.write, hfresh, hg]
    refine ⟨fun _ => by rw [hw], fun g hgg => ?_, by rw [hw], ?_⟩
    · exact absurd hgg (by simp)
    · rw [hw]
      have hp : (d.gather rt).path = d.path := rfl
      simpa using FS.read_setFile_self fs d.path _
  | some g0 =>
    have hw : d.write rt fs
        = (d, FS.setFile fs d.path (FileData.snapshotData d.stats (some g0)), none) := by
      simp [PromDumpFile.write, hfresh, hg]
    refine ⟨fun hnone => ?_, fun g hgg => by rw [hw], by rw [hw], ?_⟩
    · exact absurd hnone (by simp)
    · rw [hw]
      simpa [hg] using FS.read_setFile_self fs d.path (FileData.snapshotData d.stats (some g0))

/-- A fresh snapshot object for `c7.prom` (no graph held yet). -/
def dW7 : PromDumpFile := PromDumpFile.init "c7.prom"

/-- Witness for C7: on an empty filesystem, writing a fresh snapshot
gathers first and stores the gathered `(stats, graph)` pair. -/
theorem C7_write_gathers_iff_no_graph_witness :
    (dW7.graph = none → (dW7.write rtC2 []).1 = dW7.gather rtC2) ∧
    (∀ g, dW7.graph = some g → (dW7.write rtC2 []).1 = dW7) ∧
    (dW7.write rtC2 []).2.2 = none ∧
    FS.read (dW7.write rtC2 []).2.1 dW7.path
      = some (FileData.snapshotData (dW7.write rtC2 []).1.stats (dW7.write rtC2 []).1.graph) :=
  C7_write_gathers_iff_no_graph dW7 rtC2 [] rfl

/-- C8: the signal handler never lets an exception propagate: whatever the
gather-then-write sequence inside `dump` does, the handler returns
normally, and when the sequence raised an exception the handler's log
records it. -/
theorem C8_handler_swallows_exceptions (p : PromDump) (sig : Nat) (info : ProcessInfo)
    (rt : Runtime) (fs : FS) :
    p.handler sig info rt fs
      = Except.ok ((p.dump info rt fs).2.1,
          match (p.dump info rt fs).2.2 with
          | some e => [recvLine sig, e.logText]
          | none => [recvLine sig]) := by
  unfold PromDump.handler
  cases hd : p.dump info rt fs with
  | mk d1 rest =>
    obtain ⟨fs', err⟩ := rest
    cases err with
    | none => simp
    | some e => simp [isExceptionSubclass_true e]

/-- C9: when the runtime's statistics facility is unavailable
(`gc.get_stats` raises `AttributeError`), `gather` on a fresh snapshot
still completes, with stats left absent and the graph fully built: one
entry per enumerated object, keyed by its identity, holding its node. -/
theorem C9_gather_tolerates_missing_stats (d : PromDumpFile) (rt : Runtime)
    (hfresh : d.stats = none) (hunsup : rt.stats = none)
    (hids : (rt.objects.map HeapObj.ident).Nodup) :
    (d.gather rt).stats = none ∧
    (d.gather rt).graph = some (rt.objects.map fun o => (o.ident, nodeOf o)) := by
  constructor
  · simp [PromDumpFile.gather, hunsup, hfresh]
  · simp [PromDumpFile.gather, buildGraph_eq_map rt.objects hids]

/-- A second heap object, with an identity distinct from `oEx`. -/
def oEx2 : HeapObj :=
  { ident := 9, dump := "[1, 2]", size := 72, referents := [], referrers := [7] }

/-- A runtime without the statistics facility, enumerating two objects. -/
def rtNoStats : Runtime := { stats := none, objects := [oEx, oEx2] }

/-- Witness for C9: gathering from a stats-less runtime with two objects
leaves stats absent and builds both graph entries. -/
theorem C9_gather_tolerates_missing_stats_witness :
    ((PromDumpFile.init "c9.prom").gather rtNoStats).stats = none ∧
    ((PromDumpFile.init "c9.prom").gather rtNoStats).graph
      = some (rtNoStats.objects.map fun o => (o.ident, nodeOf o)) :=
  C9_gather_tolerates_missing_stats (PromDumpFile.init "c9.prom") rtNoStats rfl rfl
    (by decide)

/-- C10: loading from a path with no file fails with the file-not-found
error, which is distinct from `CorruptData`; and whenever `load` fails for
any reason, the snapshot object's `stats` and `graph` fields keep exactly
the values they had before the call. -/
theorem C10_load_failure_leaves_fields (d : PromDumpFile) (fs : FS) :
    (FS.pathexists fs d.path = false →
      d.load fs = (d, some (PromError.fileNotFound d.path)) ∧
      PromError.fileNotFound d.path ≠ PromError.corruptData) ∧
    (∀ e, (d.load fs).2 = some e → (d.load fs).1 = d) := by
  constructor
  · intro h
    have hread : FS.read fs d.path = none := by
      unfold FS.pathexists at h
      cases hl : fs.lookup d.path with
      | none => simpa [FS.read] using hl
      | some v => rw [hl] at h; simp at h
    refine ⟨by simp [PromDumpFile.load, hread], by simp⟩
  · intro e he
    cases hread : FS.read fs d.path with
    | none => simp [PromDumpFile.load, hread]
    | some fd =>
      cases fd with
      | corruptData => simp [PromDumpFile.load, hread]
      | snapshotData st g =>
        rw [PromDumpFile.load, hread] at he
        simp at he

end Prom
